import Mathlib

/-!
Shallow embedding of the Shopify→Bitrix webhook reconciliation endpoint
(src/pages/api/webhook/shopify.js).

Monetary quantities are modelled as `Rat` (the code always passes payload
strings through `Number(...)`; we embed the parsed value directly, with
`Option` marking fields the payload may omit).  The remote Bitrix/Shopify
calls are modelled as a trace: each handler returns its outcome together
with the ordered list of remote calls it issued; the environment `Env`
supplies the responses each remote call would produce.
-/

/-- A Shopify structured money object (`*_price_set.shop_money`), with an
optional `amount`. -/
structure MoneySet where
  amount : Option Rat := none
deriving DecidableEq, Repr

/-- One entry of `order.line_items`. -/
structure LineItem where
  product_id : Nat
  quantity : Nat
  price : Rat
  discount : Rat
deriving DecidableEq, Repr

/-- One entry of `order.shipping_lines`, with its optional `price`. -/
structure ShippingLine where
  price : Option Rat := none
deriving DecidableEq, Repr

/-- The `tags` value of a Shopify payload: absent/empty, a comma-delimited
string, or a list of tag strings (the code handles all three shapes). -/
inductive Tags where
  | absent
  | str (s : String)
  | list (l : List String)
deriving DecidableEq, Repr

/-- The inbound JSON body.  It carries both order-shaped fields (used on
`orders/create` and `orders/updated`) and refund-shaped fields
(`order_id`, `amount`, used on `refunds/create`); the code reads whichever
keys the event kind provides.  Fetched full orders reuse this shape. -/
structure Payload where
  id : Option Nat := none
  name : Option String := none
  total_price : Option Rat := none
  current_total_price : Option Rat := none
  current_total_discounts : Option Rat := none
  current_total_tax : Option Rat := none
  financial_status : Option String := none
  tags : Tags := .absent
  line_items : List LineItem := []
  shipping_lines : List ShippingLine := []
  current_total_shipping_price_set : Option MoneySet := none
  total_shipping_price_set : Option MoneySet := none
  shipping_price : Option Rat := none
  order_id : Option Nat := none
  amount : Option Rat := none
deriving Repr

/-- A deal as returned by `crm.deal.list` with the handler's `select`
columns: `ID`, `OPPORTUNITY`, `STAGE_ID`, `CATEGORY_ID` (the latter may be
absent, matching `Number(deal.CATEGORY_ID) || 2`). -/
structure Deal where
  ID : Nat
  OPPORTUNITY : Rat
  STAGE_ID : String
  CATEGORY_ID : Option Nat := none
deriving DecidableEq, Repr

/-- JavaScript `a || b` over optional parsed values: take `a` when present,
else `b`. -/
def jsOr {α : Type} (a b : Option α) : Option α :=
  match a with
  | some x => some x
  | none => b

/-- JavaScript `String(x)` on the optional numeric order id. -/
def jsStr (n : Option Nat) : String :=
  match n with
  | some v => toString v
  | none => "undefined"

/-- `Number(deal.CATEGORY_ID) || 2`: absent (NaN) or zero falls back to 2. -/
def currentCategoryId (d : Deal) : Nat :=
  match d.CATEGORY_ID with
  | some c => if c = 0 then 2 else c
  | none => 2

/-- `BITRIX_CONFIG.CATEGORY_PREORDER` (the source comment documents the
pre-order pipeline as category 8). -/
def CATEGORY_PREORDER : Nat := 8

/-- `BITRIX_CONFIG.CATEGORY_STOCK` (the source comment documents the stock
pipeline as category 2, also the `|| 2` fallback). -/
def CATEGORY_STOCK : Nat := 2

/-- The configured pre-order tag set from `handleOrderUpdated`. -/
def preorderTagSet : List String := ["pre-order", "preorder-product-added"]

/-- JavaScript `s.toLowerCase()` on the ASCII tag strings (character-wise
lower-casing). -/
def lowerStr (s : String) : String := String.mk (s.data.map Char.toLower)

/-- Accumulator for `splitComma`. -/
def splitCommaAux (cur : List Char) (acc : List (List Char)) :
    List Char → List (List Char)
  | [] => (cur.reverse :: acc).reverse
  | c :: rest =>
    if c = ',' then splitCommaAux [] (cur.reverse :: acc) rest
    else splitCommaAux (c :: cur) acc rest

/-- JavaScript `s.split(',')`. -/
def splitComma (s : String) : List String :=
  (splitCommaAux [] [] s.data).map String.mk

/-- JavaScript `s.trim()`: strip whitespace from both ends. -/
def trimStr (s : String) : String :=
  String.mk
    ((s.data.dropWhile Char.isWhitespace).reverse.dropWhile
      Char.isWhitespace).reverse

/-- Normalisation of `order.tags` in `handleOrderUpdated`: a list is used
as-is; a non-empty string is split on commas and each piece trimmed; an
absent or empty value yields no tags. -/
def orderTagList (t : Tags) : List String :=
  match t with
  | .list l => l
  | .str s => if s = "" then [] else (splitComma s).map trimStr
  | .absent => []

/-- `hasPreorderTag`: some normalised tag matches some configured pre-order
tag, comparing both sides lower-cased. -/
def hasPreorderTag (t : Tags) : Bool :=
  (orderTagList t).any fun tag =>
    preorderTagSet.any fun p => lowerStr tag == lowerStr p

/-- Category chosen for an order from its tags. -/
def categoryFor (t : Tags) : Nat :=
  if hasPreorderTag t then CATEGORY_PREORDER else CATEGORY_STOCK

/-- The shipping-price fallback chain used by the handler (and, per the
spec, by the Field Mapper): current price set, then total price set, then
the flat `shipping_price`, then the first shipping line's price, else 0. -/
def shippingPriceChain (o : Payload) : Rat :=
  (jsOr (jsOr (jsOr (o.current_total_shipping_price_set.bind MoneySet.amount)
                    (o.total_shipping_price_set.bind MoneySet.amount))
              o.shipping_price)
        (o.shipping_lines.head?.bind ShippingLine.price)).getD 0

/-- Deal fields produced by the Field Mapper. -/
structure DealFieldsM where
  UF_SHOPIFY_ORDER_ID : String
  OPPORTUNITY : Rat
  UF_SHOPIFY_TOTAL_DISCOUNT : Rat
  UF_SHOPIFY_TOTAL_TAX : Rat
  UF_SHOPIFY_SHIPPING_PRICE : Rat
deriving DecidableEq, Repr

/-- A CRM product row mirroring one order line item. -/
structure ProductRow where
  PRODUCT_ID : Nat
  QUANTITY : Nat
  PRICE : Rat
  DISCOUNT_SUM : Rat
deriving DecidableEq, Repr

/-- Modelled from the spec: `mapShopifyOrderToBitrixDeal` lives in
`src/lib/bitrix/orderMapper.js`, which is not among the sources.  Per the
spec's Field Mapper contract it is a pure total map: `OPPORTUNITY` prefers
the current total over the gross total, the discount/tax/shipping totals
use presence fallbacks defaulting to 0, the join-key back-reference is set,
and product rows project every line item, omitting zero-quantity rows. -/
def mapShopifyOrderToBitrixDeal (o : Payload) : DealFieldsM × List ProductRow :=
  ({ UF_SHOPIFY_ORDER_ID := jsStr o.id
     OPPORTUNITY := (jsOr o.current_total_price o.total_price).getD 0
     UF_SHOPIFY_TOTAL_DISCOUNT := o.current_total_discounts.getD 0
     UF_SHOPIFY_TOTAL_TAX := o.current_total_tax.getD 0
     UF_SHOPIFY_SHIPPING_PRICE := shippingPriceChain o },
   o.line_items.filterMap fun li =>
     if li.quantity = 0 then none
     else some { PRODUCT_ID := li.product_id, QUANTITY := li.quantity,
                 PRICE := li.price, DISCOUNT_SUM := li.discount })

/-- The `fields` object assembled for a `crm.deal.update` call; `none`
models a key that was never assigned. -/
structure UpdateFields where
  CATEGORY_ID : Option Nat := none
  OPPORTUNITY : Option Rat := none
  STAGE_ID : Option String := none
  UF_CRM_1739183959976 : Option String := none
  UF_SHOPIFY_TOTAL_DISCOUNT : Option Rat := none
  UF_SHOPIFY_TOTAL_TAX : Option Rat := none
  UF_SHOPIFY_SHIPPING_PRICE : Option Rat := none
deriving DecidableEq, Repr

/-- `Object.keys(fields).length > 0`. -/
def UpdateFields.nonempty (f : UpdateFields) : Bool :=
  f.CATEGORY_ID.isSome || f.OPPORTUNITY.isSome || f.STAGE_ID.isSome ||
  f.UF_CRM_1739183959976.isSome || f.UF_SHOPIFY_TOTAL_DISCOUNT.isSome ||
  f.UF_SHOPIFY_TOTAL_TAX.isSome || f.UF_SHOPIFY_SHIPPING_PRICE.isSome

/-- The `fields` object sent to `crm.deal.add`: mapped fields plus the
optional `CONTACT_ID` obtained from the contact upsert. -/
structure CreateFields where
  base : DealFieldsM
  CONTACT_ID : Option Nat := none
deriving DecidableEq, Repr

/-- One remote call issued by the endpoint, with its request payload. -/
inductive BxCall where
  | dealList (filterOrderId : String)
  | contactUpsert
  | dealAdd (fields : CreateFields)
  | dealUpdate (id : Nat) (fields : UpdateFields)
  | productRowsSet (id : Nat) (rows : List ProductRow)
  | getOrder (orderId : String)
deriving DecidableEq, Repr

/-- Whether a remote call mutates CRM state (reads are `dealList` and
`getOrder`). -/
def BxCall.isMutation : BxCall → Bool
  | .dealList _ => false
  | .getOrder _ => false
  | _ => true

/-- Whether a call is a `crm.deal.productrows.set`. -/
def BxCall.isRowsSet : BxCall → Bool
  | .productRowsSet _ _ => true
  | _ => false

/-- Whether a call is a `crm.deal.update`. -/
def BxCall.isDealUpdate : BxCall → Bool
  | .dealUpdate _ _ => true
  | _ => false

/-- Responses of the remote collaborators, fixed per event.  `stageFor` and
`payFor` stand for `financialStatusToStageId` / `financialStatusToPaymentStatus`
from `src/lib/bitrix/config.js` (not among the sources; the spec specifies
them only as pure total lookup tables, so they are kept abstract here).
`listResult` is the `crm.deal.list` result array; `dealAddResult` is the
optional `result` of `crm.deal.add`; `fetchOutcome` is the Shopify
`getOrder` read (it may throw, return nothing, or return a full order);
`updateOk`/`rowsOk` say whether `crm.deal.update` / `productrows.set`
succeed; `contactOutcome` is the contact upsert; `storeOk` the monitoring
store. -/
structure Env where
  listResult : List Deal := []
  stageFor : Option String → Nat → String
  payFor : Option String → String
  contactOutcome : Except Unit (Option Nat) := .ok none
  dealAddResult : Option Nat := none
  fetchOutcome : Except Unit (Option Payload) := .ok none
  updateOk : Bool := true
  rowsOk : Bool := true
  storeOk : Bool := true

/-- `handleOrderCreated`: map the order, best-effort contact upsert
(failure absorbed, `CONTACT_ID` attached only when a truthy id came back),
create the deal (a response without `result` throws), then, only when the
mapped rows are non-empty, set product rows (failure absorbed). -/
def handleOrderCreated (env : Env) (o : Payload) :
    Except Unit Nat × List BxCall :=
  let mapped := mapShopifyOrderToBitrixDeal o
  let contactId : Option Nat :=
    match env.contactOutcome with
    | .ok c => c
    | .error _ => none
  let contactField : Option Nat :=
    match contactId with
    | some c => if c = 0 then none else some c
    | none => none
  let fields : CreateFields := { base := mapped.1, CONTACT_ID := contactField }
  let calls := [BxCall.contactUpsert, BxCall.dealAdd fields]
  match env.dealAddResult with
  | none => (.error (), calls)
  | some dealId =>
    if mapped.2.isEmpty then (.ok dealId, calls)
    else (.ok dealId, calls ++ [BxCall.productRowsSet dealId mapped.2])

/-- The update `fields` object assembled by `handleOrderUpdated` for a
located deal: category/amount/stage only when changed, the payment-status
enum always, and the three UF_* monetary fields gated on presence in the
payload (the shipping gate tests `shipping_lines?.[0]?.price` while the
value comes from the fallback chain). -/
def updateFieldsFor (stageFor : Option String → Nat → String)
    (payFor : Option String → String) (o : Payload) (d : Deal) :
    UpdateFields :=
  let catId := categoryFor o.tags
  let curCat := currentCategoryId d
  let newAmount := (jsOr o.current_total_price o.total_price).getD 0
  let stageId := stageFor o.financial_status catId
  { CATEGORY_ID := if catId ≠ curCat then some catId else none
    OPPORTUNITY := if newAmount ≠ d.OPPORTUNITY then some newAmount else none
    STAGE_ID := if stageId ≠ d.STAGE_ID then some stageId else none
    UF_CRM_1739183959976 := some (payFor o.financial_status)
    UF_SHOPIFY_TOTAL_DISCOUNT := o.current_total_discounts
    UF_SHOPIFY_TOTAL_TAX := o.current_total_tax
    UF_SHOPIFY_SHIPPING_PRICE :=
      if (o.shipping_lines.head?.bind ShippingLine.price).isSome
      then some (shippingPriceChain o) else none }

/-- `handleOrderUpdated`: locate the deal (none found is a successful
no-op), build the diff, issue `crm.deal.update` only when the diff has
keys (an update failure propagates — it is outside any try), then always
issue one `productrows.set` carrying the freshly mapped rows (the code
sends the rows when non-empty and an explicit `[]` otherwise, i.e. always
exactly the mapped row set; failure absorbed). -/
def handleOrderUpdated (env : Env) (o : Payload) :
    Except Unit (Option Nat) × List BxCall :=
  let listCall := BxCall.dealList (jsStr o.id)
  match env.listResult.head? with
  | none => (.ok none, [listCall])
  | some d =>
    let fields := updateFieldsFor env.stageFor env.payFor o d
    let updCalls :=
      if fields.nonempty then [BxCall.dealUpdate d.ID fields] else []
    if fields.nonempty && !env.updateOk then
      (.error (), listCall :: updCalls)
    else
      let rows := (mapShopifyOrderToBitrixDeal o).2
      (.ok (some d.ID), listCall :: updCalls ++ [BxCall.productRowsSet d.ID rows])

/-- The update `fields` object assembled by `handleRefundCreated` from the
fetched order: the four monetary fields unconditionally, plus the
payment-status enum `"58"` (Unpaid) and — on full refund only — a stage
forced to the refunded stage for the deal's current category. -/
def refundUpdateFields (stageFor : Option String → Nat → String)
    (refund : Payload) (d : Deal) (fetched : Payload) : UpdateFields :=
  let mappedFields := (mapShopifyOrderToBitrixDeal fetched).1
  let refundAmount := refund.amount.getD 0
  let orderTotal := fetched.total_price.getD 0
  let remainingAmount := orderTotal - refundAmount
  let base : UpdateFields :=
    { OPPORTUNITY := some mappedFields.OPPORTUNITY
      UF_SHOPIFY_TOTAL_DISCOUNT := some mappedFields.UF_SHOPIFY_TOTAL_DISCOUNT
      UF_SHOPIFY_SHIPPING_PRICE := some mappedFields.UF_SHOPIFY_SHIPPING_PRICE
      UF_SHOPIFY_TOTAL_TAX := some mappedFields.UF_SHOPIFY_TOTAL_TAX }
  if remainingAmount ≤ 0 then
    { base with
      UF_CRM_1739183959976 := some "58"
      STAGE_ID := some (stageFor (some "refunded") (currentCategoryId d)) }
  else if refundAmount > 0 then
    { base with UF_CRM_1739183959976 := some "58" }
  else base

/-- `handleRefundCreated`: locate the deal by `order_id` (none found is a
successful no-op); everything after is in one try whose catch absorbs any
error, so a fetch failure skips all mutations, an update failure skips the
row sync, and the handler returns the deal id (success) in every case.
Product rows are set only when the recomputed set is non-empty. -/
def handleRefundCreated (env : Env) (refund : Payload) :
    Except Unit (Option Nat) × List BxCall :=
  let listCall := BxCall.dealList (jsStr refund.order_id)
  match env.listResult.head? with
  | none => (.ok none, [listCall])
  | some d =>
    match env.fetchOutcome with
    | .error _ => (.ok (some d.ID), [listCall, BxCall.getOrder (jsStr refund.order_id)])
    | .ok none => (.ok (some d.ID), [listCall, BxCall.getOrder (jsStr refund.order_id)])
    | .ok (some fetched) =>
      let baseCalls := [listCall, BxCall.getOrder (jsStr refund.order_id)]
      let fields := refundUpdateFields env.stageFor refund d fetched
      let updCall := BxCall.dealUpdate d.ID fields
      if !env.updateOk then
        (.ok (some d.ID), baseCalls ++ [updCall])
      else
        let rows := (mapShopifyOrderToBitrixDeal fetched).2
        if rows.isEmpty then
          (.ok (some d.ID), baseCalls ++ [updCall])
        else
          (.ok (some d.ID), baseCalls ++ [updCall, BxCall.productRowsSet d.ID rows])

/-- The response sent to the webhook caller. -/
inductive HandlerResult where
  | methodNotAllowed
  | success (topic : Option String)
  | internalError
deriving DecidableEq, Repr

/-- The exported request handler: reject non-POST with 405 before any side
effect; otherwise store a monitoring record (failure absorbed), dispatch on
the topic header (unknown/missing topics are acknowledged with no calls),
and map an uncaught handler error to a 500 response, everything else to a
200 success.  Returns (response, remote-call trace, monitoring-store
attempted). -/
def handler (env : Env) (method : String) (topic : Option String)
    (body : Payload) : HandlerResult × List BxCall × Bool :=
  if method ≠ "POST" then (.methodNotAllowed, [], false)
  else
    let run : Except Unit Unit × List BxCall :=
      if topic = some "orders/create" then
        let r := handleOrderCreated env body
        (r.1.map fun _ => (), r.2)
      else if topic = some "orders/updated" then
        let r := handleOrderUpdated env body
        (r.1.map fun _ => (), r.2)
      else if topic = some "refunds/create" then
        let r := handleRefundCreated env body
        (r.1.map fun _ => (), r.2)
      else (.ok (), [])
    match run.1 with
    | .ok _ => (.success topic, run.2, true)
    | .error _ => (.internalError, run.2, true)

/-! Concrete fixtures used by counterexamples and witnesses. -/

/-- A concrete stage lookup standing in for `financialStatusToStageId`. -/
def stage0 : Option String → Nat → String := fun fs cat =>
  match fs with
  | some s => s ++ ":" ++ toString cat
  | none => "C:" ++ toString cat

/-- A concrete payment-status lookup standing in for
`financialStatusToPaymentStatus`. -/
def pay0 : Option String → String := fun _ => "58"

/-- A concrete located deal in the stock category. -/
def d0 : Deal := { ID := 7, OPPORTUNITY := 100, STAGE_ID := "paid:2", CATEGORY_ID := some 2 }

/-- A base environment: no deal located, all remote calls succeed. -/
def baseEnv : Env := { stageFor := stage0, payFor := pay0, dealAddResult := some 1 }

/-- An order payload matching `d0` exactly: same category, amount and
stage, no monetary extras. -/
def o1 : Payload :=
  { id := some 11, current_total_price := some 100, financial_status := some "paid" }

/-- Environment in which `d0` is the located deal. -/
def env1 : Env := { baseEnv with listResult := [d0] }

/-- Environment whose `crm.deal.add` response carries no `result`. -/
def env2 : Env := { stageFor := stage0, payFor := pay0 }

/-- A refund payload: full 100 refunded on order 11. -/
def refund100 : Payload := { order_id := some 11, id := some 900, amount := some 100 }

/-- A partial refund payload: 40 refunded on order 11. -/
def refund40 : Payload := { order_id := some 11, id := some 901, amount := some 40 }

/-- A fetched order with total 100 and no remaining line items. -/
def fetched0 : Payload := { id := some 11, total_price := some 100 }

/-- A fetched order with total 100 and one remaining line item. -/
def fetched1 : Payload :=
  { id := some 11, total_price := some 100,
    line_items := [{ product_id := 5, quantity := 1, price := 100, discount := 0 }] }

/-- Environment for a refund on located deal `d0` whose order fetch
returns `fetched0` (nothing left on the order). -/
def env7 : Env :=
  { baseEnv with listResult := [d0], fetchOutcome := .ok (some fetched0) }

/-- Environment for a refund on located deal `d0` whose order fetch
returns `fetched1`. -/
def env8 : Env :=
  { baseEnv with listResult := [d0], fetchOutcome := .ok (some fetched1) }

/-- Environment like `env8` but whose `crm.deal.update` call fails. -/
def env9 : Env :=
  { baseEnv with
    listResult := [d0]
    fetchOutcome := .ok (some fetched1)
    updateOk := false }

/-- An order providing a shipping amount only through its current shipping
price set, with no shipping lines. -/
def o8 : Payload :=
  { id := some 11, current_total_shipping_price_set := some { amount := some 10 } }

/-- Environment with located deal `d0` whose `crm.deal.update` call fails
on the `orders/updated` path. -/
def env6 : Env := { baseEnv with listResult := [d0], updateOk := false }

/-- C10: a non-POST request is answered with 405 (method not allowed) and
has no side effects: no remote call is issued and no monitoring event is
stored. -/
theorem C10_non_post_rejected (env : Env) (method : String)
    (topic : Option String) (body : Payload) (h : method ≠ "POST") :
    handler env method topic body = (.methodNotAllowed, [], false) := by
  simp [handler, h]

/-- Witness for C10 at a concrete GET request. -/
theorem C10_non_post_rejected_witness :
    ("GET" : String) ≠ "POST" ∧
      handler baseEnv "GET" (some "orders/create") {} = (.methodNotAllowed, [], false) :=
  ⟨by decide, C10_non_post_rejected baseEnv "GET" (some "orders/create") {} (by decide)⟩

/-- C2: on `orders/create`, a `crm.deal.add` response without a `result`
identifier aborts the event: the caller gets an internal-error response and
no `productrows.set` call is attempted. -/
theorem C2_create_without_result_aborts (env : Env) (o : Payload)
    (h : env.dealAddResult = none) :
    (handler env "POST" (some "orders/create") o).1 = .internalError ∧
      (handler env "POST" (some "orders/create") o).2.1.any BxCall.isRowsSet = false := by
  simp [handler, handleOrderCreated, h, BxCall.isRowsSet, Except.map]

/-- Witness for C2 at a concrete environment and empty order body. -/
theorem C2_create_without_result_aborts_witness :
    env2.dealAddResult = none ∧
      ((handler env2 "POST" (some "orders/create") {}).1 = .internalError ∧
        (handler env2 "POST" (some "orders/create") {}).2.1.any BxCall.isRowsSet = false) :=
  ⟨rfl, C2_create_without_result_aborts env2 {} rfl⟩

/-- C4: on `orders/updated` or `refunds/create`, when no deal matches the
external order id the handler issues no mutating remote call and still
responds with success. -/
theorem C4_no_deal_is_successful_noop (env : Env) (body : Payload)
    (h : env.listResult = []) :
    ((handler env "POST" (some "orders/updated") body).1 =
        .success (some "orders/updated") ∧
      (handler env "POST" (some "orders/updated") body).2.1.any BxCall.isMutation = false) ∧
    ((handler env "POST" (some "refunds/create") body).1 =
        .success (some "refunds/create") ∧
      (handler env "POST" (some "refunds/create") body).2.1.any BxCall.isMutation = false) := by
  simp [handler, handleOrderUpdated, handleRefundCreated, h, BxCall.isMutation,
    Except.map]

/-- Witness for C4 at a concrete environment with no matching deal. -/
theorem C4_no_deal_is_successful_noop_witness :
    baseEnv.listResult = [] ∧
      (((handler baseEnv "POST" (some "orders/updated") o1).1 =
          .success (some "orders/updated") ∧
        (handler baseEnv "POST" (some "orders/updated") o1).2.1.any BxCall.isMutation = false) ∧
      ((handler baseEnv "POST" (some "refunds/create") o1).1 =
          .success (some "refunds/create") ∧
        (handler baseEnv "POST" (some "refunds/create") o1).2.1.any BxCall.isMutation = false)) :=
  ⟨rfl, C4_no_deal_is_successful_noop baseEnv o1 rfl⟩

/-- C5: tag-based category routing is case-insensitive and accepts the
tags as a list or a comma-delimited string: an order routes to the
pre-order category exactly when some normalised tag lower-cases to a
configured pre-order tag, and otherwise to the stock category; in
particular `["Pre-Order"]` and `"pre-order"` both route to pre-order. -/
theorem C5_tag_category_routing :
    (∀ t : Tags,
      (categoryFor t = CATEGORY_PREORDER ↔
        ∃ tag ∈ orderTagList t, ∃ p ∈ preorderTagSet, lowerStr tag = lowerStr p) ∧
      (categoryFor t = CATEGORY_PREORDER ∨ categoryFor t = CATEGORY_STOCK)) ∧
    categoryFor (.list ["Pre-Order"]) = CATEGORY_PREORDER ∧
    categoryFor (.str "pre-order") = CATEGORY_PREORDER := by
  refine ⟨fun t => ⟨?_, ?_⟩, by decide, by decide⟩
  · by_cases h : hasPreorderTag t
    · simp only [categoryFor, h, if_true, true_iff]
      simpa [hasPreorderTag, List.any_eq_true, beq_iff_eq] using h
    · simp only [categoryFor, h, if_false, CATEGORY_PREORDER, CATEGORY_STOCK]
      constructor
      · intro hc
        exact absurd hc (by decide)
      · intro hex
        exact absurd (by simpa [hasPreorderTag, List.any_eq_true, beq_iff_eq] using hex) h
  · by_cases h : hasPreorderTag t <;> simp [categoryFor, h]

/-- Counterexample to C1: for order `o1` against located deal `d0` none of
category, amount or stage changed — the computed diff has no
`CATEGORY_ID`, `OPPORTUNITY` or `STAGE_ID` key — yet `crm.deal.update` is
still called, because the payment-status field is set unconditionally. -/
theorem C1_counterexample :
    (updateFieldsFor stage0 pay0 o1 d0).CATEGORY_ID = none ∧
    (updateFieldsFor stage0 pay0 o1 d0).OPPORTUNITY = none ∧
    (updateFieldsFor stage0 pay0 o1 d0).STAGE_ID = none ∧
    (handleOrderUpdated env1 o1).2.any BxCall.isDealUpdate = true := by
  decide

/-- C1 (amended): on `orders/updated` with a located deal, `crm.deal.update`
is issued exactly when the diff is non-empty; but the payment-status field
is included unconditionally, so the diff is never empty and exactly one
update call — always carrying the payment-status field — is issued even
when none of category, amount or stage changed. -/
theorem C1_update_always_called (env : Env) (o : Payload) (d : Deal)
    (h : env.listResult.head? = some d) :
    (updateFieldsFor env.stageFor env.payFor o d).nonempty = true ∧
    (updateFieldsFor env.stageFor env.payFor o d).UF_CRM_1739183959976.isSome = true ∧
    (handleOrderUpdated env o).2.countP BxCall.isDealUpdate = 1 ∧
    BxCall.dealUpdate d.ID (updateFieldsFor env.stageFor env.payFor o d) ∈
      (handleOrderUpdated env o).2 := by
  have hne : (updateFieldsFor env.stageFor env.payFor o d).nonempty = true := by
    simp [updateFieldsFor, UpdateFields.nonempty]
  have hpay :
      (updateFieldsFor env.stageFor env.payFor o d).UF_CRM_1739183959976.isSome = true := by
    simp [updateFieldsFor]
  refine ⟨hne, hpay, ?_, ?_⟩ <;>
    cases hu : env.updateOk <;>
      simp [handleOrderUpdated, h, hne, hu, BxCall.isDealUpdate, List.countP_cons,
        List.countP_append]

/-- Witness for C1 (amended) at `env1`, `o1`, `d0`. -/
theorem C1_update_always_called_witness :
    env1.listResult.head? = some d0 ∧
      ((updateFieldsFor env1.stageFor env1.payFor o1 d0).nonempty = true ∧
      (updateFieldsFor env1.stageFor env1.payFor o1 d0).UF_CRM_1739183959976.isSome = true ∧
      (handleOrderUpdated env1 o1).2.countP BxCall.isDealUpdate = 1 ∧
      BxCall.dealUpdate d0.ID (updateFieldsFor env1.stageFor env1.payFor o1 d0) ∈
        (handleOrderUpdated env1 o1).2) :=
  ⟨rfl, C1_update_always_called env1 o1 d0 rfl⟩

/-- Counterexample to C6: in `env6` the deal `d0` is located, the (always
issued, un-tried) `crm.deal.update` call fails, and its error propagates:
the event errors out with zero `productrows.set` calls — so on this
`orders/updated` event with a located deal no set-product-rows call occurs
at all, against the claim's "exactly one ... regardless". -/
theorem C6_counterexample :
    (handleOrderUpdated env6 o1).2.any BxCall.isDealUpdate = true ∧
    (handleOrderUpdated env6 o1).2.any BxCall.isRowsSet = false ∧
    (handleOrderUpdated env6 o1).1 = Except.error () := by
  refine ⟨by decide, by decide, rfl⟩

/-- C6 (amended): on `orders/updated` with a located deal, provided the
always-issued update call does not fail (its failure propagates and skips
the row resync), exactly one `productrows.set` call occurs regardless of
the field diff, and it carries exactly the freshly mapped row set — the
full recomputed rows when line items exist, the explicit empty set when
the order has zero mapped line items. -/
theorem C6_rows_always_resynced (env : Env) (o : Payload) (d : Deal)
    (hd : env.listResult.head? = some d) (hu : env.updateOk = true) :
    (handleOrderUpdated env o).2.countP BxCall.isRowsSet = 1 ∧
    BxCall.productRowsSet d.ID (mapShopifyOrderToBitrixDeal o).2 ∈
      (handleOrderUpdated env o).2 := by
  have hne : (updateFieldsFor env.stageFor env.payFor o d).nonempty = true := by
    simp [updateFieldsFor, UpdateFields.nonempty]
  constructor <;>
    simp [handleOrderUpdated, hd, hu, hne, BxCall.isRowsSet, List.countP_cons,
      List.countP_append]

/-- Witness for C6 at `env1`, `o1` (an order with zero line items: the one
row call carries the explicit empty set), `d0`. -/
theorem C6_rows_always_resynced_witness :
    env1.listResult.head? = some d0 ∧ env1.updateOk = true ∧
      ((handleOrderUpdated env1 o1).2.countP BxCall.isRowsSet = 1 ∧
      BxCall.productRowsSet d0.ID (mapShopifyOrderToBitrixDeal o1).2 ∈
        (handleOrderUpdated env1 o1).2) :=
  ⟨rfl, rfl, C6_rows_always_resynced env1 o1 d0 rfl rfl⟩

/-- Counterexample to C8: order `o8` provides the shipping monetary
quantity (its current shipping price set carries amount 10, the very first
source of the code's own shipping value chain) yet the computed update
fields omit `UF_SHOPIFY_SHIPPING_PRICE`, because the inclusion gate only
tests `shipping_lines?.[0]?.price`. -/
theorem C8_counterexample :
    ((o8.current_total_shipping_price_set.bind MoneySet.amount).isSome = true) ∧
    shippingPriceChain o8 = 10 ∧
    (updateFieldsFor stage0 pay0 o8 d0).UF_SHOPIFY_SHIPPING_PRICE = none := by
  decide

/-- C8 (amended): in the `orders/updated` diff the discount and tax fields
are included exactly when `current_total_discounts` / `current_total_tax`
are present, and the shipping field exactly when the first shipping line
provides a `price` (its value then drawn from the fallback chain that
prefers the price sets); all three are independent of the located deal's
current values. -/
theorem C8_monetary_fields_presence_based
    (s : Option String → Nat → String) (p : Option String → String)
    (o : Payload) (d d2 : Deal) :
    (updateFieldsFor s p o d).UF_SHOPIFY_TOTAL_DISCOUNT = o.current_total_discounts ∧
    (updateFieldsFor s p o d).UF_SHOPIFY_TOTAL_TAX = o.current_total_tax ∧
    (updateFieldsFor s p o d).UF_SHOPIFY_SHIPPING_PRICE.isSome =
      (o.shipping_lines.head?.bind ShippingLine.price).isSome ∧
    (updateFieldsFor s p o d).UF_SHOPIFY_TOTAL_DISCOUNT =
      (updateFieldsFor s p o d2).UF_SHOPIFY_TOTAL_DISCOUNT ∧
    (updateFieldsFor s p o d).UF_SHOPIFY_TOTAL_TAX =
      (updateFieldsFor s p o d2).UF_SHOPIFY_TOTAL_TAX ∧
    (updateFieldsFor s p o d).UF_SHOPIFY_SHIPPING_PRICE =
      (updateFieldsFor s p o d2).UF_SHOPIFY_SHIPPING_PRICE := by
  refine ⟨rfl, rfl, ?_, rfl, rfl, rfl⟩
  by_cases h : (o.shipping_lines.head?.bind ShippingLine.price).isSome <;>
    simp [updateFieldsFor, h]

/-- C3: on `refunds/create` with a located deal and a successful order
fetch, the update call carries the computed refund fields; with
remaining = orderTotal − refundAmount, if remaining ≤ 0 they hold the
unpaid payment-status code `"58"` and a stage forced to the refunded stage
for the deal's current category, while if remaining > 0 and
refundAmount > 0 they hold code `"58"` and no stage key. -/
theorem C3_refund_threshold (env : Env) (refund : Payload) (d : Deal)
    (fetched : Payload) (hd : env.listResult.head? = some d)
    (hf : env.fetchOutcome = .ok (some fetched)) :
    BxCall.dealUpdate d.ID (refundUpdateFields env.stageFor refund d fetched) ∈
      (handleRefundCreated env refund).2 ∧
    (fetched.total_price.getD 0 - refund.amount.getD 0 ≤ 0 →
      (refundUpdateFields env.stageFor refund d fetched).UF_CRM_1739183959976 =
          some "58" ∧
      (refundUpdateFields env.stageFor refund d fetched).STAGE_ID =
          some (env.stageFor (some "refunded") (currentCategoryId d))) ∧
    (0 < fetched.total_price.getD 0 - refund.amount.getD 0 →
      0 < refund.amount.getD 0 →
      (refundUpdateFields env.stageFor refund d fetched).UF_CRM_1739183959976 =
          some "58" ∧
      (refundUpdateFields env.stageFor refund d fetched).STAGE_ID = none) := by
  refine ⟨?_, ?_, ?_⟩
  · by_cases hr : (mapShopifyOrderToBitrixDeal fetched).2 = [] <;>
      cases hu : env.updateOk <;>
      simp [handleRefundCreated, hd, hf, hu, hr]
  · intro hle
    constructor <;> simp [refundUpdateFields, hle]
  · intro hgt hamt
    have hnle : ¬ (fetched.total_price.getD 0 - refund.amount.getD 0 ≤ 0) :=
      not_le.mpr hgt
    constructor <;> simp [refundUpdateFields, hnle, hamt]

/-- Witness for C3 at a full refund: `refund100` against fetched order
`fetched0` (total 100), deal `d0`. -/
theorem C3_refund_threshold_witness :
    env7.listResult.head? = some d0 ∧
    env7.fetchOutcome = .ok (some fetched0) ∧
      (BxCall.dealUpdate d0.ID
          (refundUpdateFields env7.stageFor refund100 d0 fetched0) ∈
        (handleRefundCreated env7 refund100).2 ∧
      (fetched0.total_price.getD 0 - refund100.amount.getD 0 ≤ 0 →
        (refundUpdateFields env7.stageFor refund100 d0 fetched0).UF_CRM_1739183959976 =
            some "58" ∧
        (refundUpdateFields env7.stageFor refund100 d0 fetched0).STAGE_ID =
            some (env7.stageFor (some "refunded") (currentCategoryId d0))) ∧
      (0 < fetched0.total_price.getD 0 - refund100.amount.getD 0 →
        0 < refund100.amount.getD 0 →
        (refundUpdateFields env7.stageFor refund100 d0 fetched0).UF_CRM_1739183959976 =
            some "58" ∧
        (refundUpdateFields env7.stageFor refund100 d0 fetched0).STAGE_ID = none)) :=
  ⟨rfl, rfl, C3_refund_threshold env7 refund100 d0 fetched0 rfl rfl⟩

/-- Counterexample to C7: for the refund `refund100` on located deal `d0`
with fetched order `fetched0`, the recomputed row set is empty, the update
call is issued, yet no `productrows.set` call occurs at all — the rows are
not replaced with the (empty) recomputed set. -/
theorem C7_counterexample :
    (mapShopifyOrderToBitrixDeal fetched0).2 = [] ∧
    (handleRefundCreated env7 refund100).2.any BxCall.isDealUpdate = true ∧
    (handleRefundCreated env7 refund100).2.any BxCall.isRowsSet = false := by
  decide

/-- C7 (amended): on `refunds/create` with a located deal, a successful
order fetch and a successful update call, the deal's product rows are
replaced with the set recomputed from the fetched order when that set is
non-empty; when the recomputed set is empty, no row-replacement call is
made. -/
theorem C7_rows_after_refund (env : Env) (refund : Payload) (d : Deal)
    (fetched : Payload) (hd : env.listResult.head? = some d)
    (hf : env.fetchOutcome = .ok (some fetched)) (hu : env.updateOk = true) :
    ((mapShopifyOrderToBitrixDeal fetched).2 ≠ [] →
      BxCall.productRowsSet d.ID (mapShopifyOrderToBitrixDeal fetched).2 ∈
        (handleRefundCreated env refund).2) ∧
    ((mapShopifyOrderToBitrixDeal fetched).2 = [] →
      (handleRefundCreated env refund).2.any BxCall.isRowsSet = false) := by
  constructor
  · intro hne
    simp [handleRefundCreated, hd, hf, hu, hne]
  · intro he
    simp [handleRefundCreated, hd, hf, hu, he, BxCall.isRowsSet]

/-- Witness for C7 (amended) at `env8`, `refund40`, `d0`, `fetched1` (a
non-empty recomputed row set). -/
theorem C7_rows_after_refund_witness :
    env8.listResult.head? = some d0 ∧
    env8.fetchOutcome = .ok (some fetched1) ∧ env8.updateOk = true ∧
      (((mapShopifyOrderToBitrixDeal fetched1).2 ≠ [] →
        BxCall.productRowsSet d0.ID (mapShopifyOrderToBitrixDeal fetched1).2 ∈
          (handleRefundCreated env8 refund40).2) ∧
      ((mapShopifyOrderToBitrixDeal fetched1).2 = [] →
        (handleRefundCreated env8 refund40).2.any BxCall.isRowsSet = false)) :=
  ⟨rfl, rfl, rfl, C7_rows_after_refund env8 refund40 d0 fetched1 rfl rfl rfl⟩

/-- Counterexample to C9: in `env9` the `crm.deal.update` call fails; the
recomputed row set is non-empty and the event still reports success, but
no `productrows.set` call is ever issued — the update failure is absorbed
by the single surrounding catch and prevents the row sync, so the failures
are not independent. -/
theorem C9_counterexample :
    (mapShopifyOrderToBitrixDeal fetched1).2 ≠ [] ∧
    (handleRefundCreated env9 refund100).2.any BxCall.isDealUpdate = true ∧
    (handleRefundCreated env9 refund100).1 = Except.ok (some d0.ID) ∧
    (handleRefundCreated env9 refund100).2.any BxCall.isRowsSet = false := by
  refine ⟨by decide, by decide, rfl, by decide⟩

/-- C9 (amended): on `refunds/create` with a located deal every remote
failure is non-fatal to the event — the caller always receives a success
response — but the calls after a failure are skipped: a failed update call
means no `productrows.set` call, and a failed order fetch means no
`crm.deal.update` call. -/
theorem C9_refund_failures_nonfatal (env : Env) (r : Payload) (d : Deal)
    (hd : env.listResult.head? = some d) :
    (handler env "POST" (some "refunds/create") r).1 =
      .success (some "refunds/create") ∧
    (env.updateOk = false →
      (handler env "POST" (some "refunds/create") r).2.1.any BxCall.isRowsSet = false) ∧
    (env.fetchOutcome = .error () →
      (handler env "POST" (some "refunds/create") r).2.1.any BxCall.isDealUpdate = false) := by
  refine ⟨?_, ?_, ?_⟩
  · rcases hf : env.fetchOutcome with he | of
    · simp [handler, handleRefundCreated, hd, hf, Except.map]
    · rcases of with _ | fetched
      · simp [handler, handleRefundCreated, hd, hf, Except.map]
      · by_cases hr : (mapShopifyOrderToBitrixDeal fetched).2 = [] <;>
          cases hu : env.updateOk <;>
          simp [handler, handleRefundCreated, hd, hf, hu, hr, Except.map]
  · intro hu
    rcases hf : env.fetchOutcome with he | of
    · simp [handler, handleRefundCreated, hd, hf, hu, Except.map, BxCall.isRowsSet]
    · rcases of with _ | fetched
      · simp [handler, handleRefundCreated, hd, hf, hu, Except.map, BxCall.isRowsSet]
      · simp [handler, handleRefundCreated, hd, hf, hu, Except.map, BxCall.isRowsSet]
  · intro hf
    simp [handler, handleRefundCreated, hd, hf, Except.map, BxCall.isDealUpdate]

/-- Witness for C9 (amended) at `env9`, `refund100`, `d0`. -/
theorem C9_refund_failures_nonfatal_witness :
    env9.listResult.head? = some d0 ∧
      ((handler env9 "POST" (some "refunds/create") refund100).1 =
        .success (some "refunds/create") ∧
      (env9.updateOk = false →
        (handler env9 "POST" (some "refunds/create") refund100).2.1.any
          BxCall.isRowsSet = false) ∧
      (env9.fetchOutcome = .error () →
        (handler env9 "POST" (some "refunds/create") refund100).2.1.any
          BxCall.isDealUpdate = false)) :=
  ⟨rfl, C9_refund_failures_nonfatal env9 refund100 d0 rfl⟩
